import Mathlib

/-!
Verification of the agent-orchestration core of the
Agentic_RAG_Document_Compare_System repository.

The development shallowly embeds the two pipeline agents
(`app/agents/rag_agent.py` and `app/agents/comparative_agent.py`).
External collaborators (vector store, Gemini client, ontology manager)
are modelled as oracle parameters of type `Except String _`, mirroring the
fact that each external call either returns a value or raises an exception
that the enclosing pipeline step catches.  Python floats are modelled as
exact rationals (`ℚ`); every numeric constant in the agents is a short
decimal fraction, written here as the corresponding rational.
Strings are Lean `String`s; Python's `len`, slicing and `in` (substring)
operators correspond to `String.length`, `String.take` and the substring
test defined below, with lowercasing done characterwise (the agents only
ever search for ASCII keywords).
-/

namespace AgenticRag

/-- Characterwise lowercase of a string, as a character list.  Models
Python's `str.lower()` on the ASCII keyword material the agents search. -/
def lowerStr (s : String) : List Char :=
  s.data.map Char.toLower

/-- Does `hay` start with `needle`? -/
def leadsWith : List Char → List Char → Bool
  | [], _ => true
  | _ :: _, [] => false
  | a :: as, b :: bs => a == b && leadsWith as bs

/-- Substring test: Python's `needle in hay` on character lists. -/
def hasSub (needle : List Char) : List Char → Bool
  | [] => leadsWith needle []
  | c :: rest => leadsWith needle (c :: rest) || hasSub needle rest

/-- Python's `needle in hay.lower()` for an (already lowercase) literal
`needle`, the idiom used throughout both agents. -/
def containsCI (hay : String) (needle : String) : Bool :=
  hasSub needle.data (lowerStr hay)

/-- Python's `any(word in query_lower for word in words)`. -/
def anyKeyword (hay : String) (kws : List String) : Bool :=
  kws.any (fun kw => containsCI hay kw)

/-- Chunk metadata as consumed by the agents (`chunk["metadata"]`).
In the embedding the fields are total; the agents read them through
`dict.get` with defaults, which the claims never distinguish. -/
structure ChunkMeta where
  filename : String
  page_number : String
  domain : String
  document_type : String
  ontology_concepts : List String
  chunk_type : String
deriving DecidableEq

/-- A retrieval chunk: `{content, metadata, distance?}`. -/
structure Chunk where
  content : String
  metadata : ChunkMeta
  distance : Option ℚ
deriving DecidableEq

/-- The RAG agent's session state (`AgentState` in `rag_agent.py`).
`related_concepts` is omitted: `_generate_response` writes that key but the
response builder recomputes concepts from the chunks instead of reading it,
and its Python value is a `list(set(...))` whose order is
interpreter-dependent; no claim depends on it. -/
structure AgentState where
  query : String
  domain : Option String
  retrieved_chunks : List Chunk
  final_response : String
  reasoning_steps : List String
  confidence : ℚ
  iteration_count : Nat
deriving DecidableEq

/-- Keyword-based domain detection from `RAGAgent._analyze_query`. -/
def detectDomain (query : String) : String :=
  if anyKeyword query ["insurance", "coverage", "medical", "health"] then "healthcare"
  else if anyKeyword query ["contract", "legal", "agreement", "terms"] then "legal"
  else if anyKeyword query ["financial", "investment", "portfolio", "budget"] then "financial"
  else "general"

/-- Step 1, `RAGAgent._analyze_query`.  Python's `if not domain` treats both
`None` and the empty string as absent.  The step has no external call, so
its `try` body cannot fail in the embedding. -/
def analyzeQuery (s : AgentState) : AgentState :=
  let rs1 := s.reasoning_steps ++ ["Analyzing query intent and domain"]
  let domain :=
    match s.domain with
    | some d => if d = "" then detectDomain s.query else d
    | none => detectDomain s.query
  { s with domain := some domain,
           reasoning_steps := rs1 ++ ["Identified domain: " ++ domain],
           iteration_count := s.iteration_count + 1 }

/-- Step 2, `RAGAgent._retrieve_documents`.  The vector-store call is the
oracle; on failure the log entries appended before the call persist (the
Python code mutates the state's list in place) and the error is logged. -/
def retrieveDocuments (retrieval : Except String (List Chunk)) (s : AgentState) : AgentState :=
  let rs1 := s.reasoning_steps ++ ["Retrieving relevant documents"]
  match retrieval with
  | .ok chunks =>
      { s with retrieved_chunks := chunks,
               reasoning_steps :=
                 rs1 ++ ["Retrieved " ++ toString chunks.length ++ " relevant chunks"] }
  | .error e =>
      { s with reasoning_steps := rs1 ++ ["Error in document retrieval: " ++ e] }

/-- Relevance test from `RAGAgent._analyze_relevance`: keep a chunk when its
distance is absent or strictly below the lenient threshold `2.0`. -/
def chunkPasses (c : Chunk) : Bool :=
  match c.distance with
  | none => true
  | some d => decide (d < 2)

/-- Step 3, `RAGAgent._analyze_relevance` (pure).  If the threshold filter
empties a non-empty list, the first 3 unfiltered chunks are kept; the log
message reports the length before the final truncation to 5. -/
def analyzeRelevance (s : AgentState) : AgentState :=
  let rs1 := s.reasoning_steps ++ ["Analyzing relevance of retrieved content"]
  let chunks := s.retrieved_chunks
  let relevant := chunks.filter chunkPasses
  let relevant := if relevant.isEmpty && !chunks.isEmpty then chunks.take 3 else relevant
  { s with retrieved_chunks := relevant.take 5,
           reasoning_steps :=
             rs1 ++ ["Filtered to " ++ toString relevant.length ++ " highly relevant chunks"] }

/-- The healthcare insight rule table of `RAGAgent._get_ontological_insights`:
keyword groups in source order, each with its fixed insight string. -/
def healthcareInsightRules : List (List String × String) :=
  [ (["premium", "cost", "price", "pay"],
     "FINANCIAL CONTEXT: Premiums are recurring monthly costs. Consider total cost including deductibles and copayments."),
    (["deductible"],
     "DEDUCTIBLE CONTEXT: Annual amount paid before insurance begins covering costs. Preventive services often exempt."),
    (["copay", "copayment"],
     "COPAYMENT CONTEXT: Fixed amounts paid per service. Varies by provider type (primary care vs specialist)."),
    (["compare", "vs", "versus", "difference"],
     "COMPARISON FRAMEWORK: Evaluate total annual cost (premiums + expected out-of-pocket) for meaningful comparisons."),
    (["primary care", "family doctor"],
     "PRIMARY CARE: Usually lowest copayments. Often required for specialist referrals in HMO plans."),
    (["specialist", "specialty"],
     "SPECIALIST CARE: Higher copayments than primary care. May require referrals depending on plan type."),
    (["emergency", "er", "urgent"],
     "EMERGENCY CARE: Highest cost-sharing but no referral required. Consider urgent care for non-emergencies."),
    (["hmo", "ppo", "plan type"],
     "PLAN TYPES: HMO requires referrals but lower costs. PPO offers flexibility but higher premiums.") ]

/-- Model of `RAGAgent._get_ontological_insights`.  Returns `""` immediately when the
concept list is empty; otherwise fires the healthcare rule groups in order,
keeps the first 4 matches, and joins them with a separator.  The `domain`
argument carries the state's possibly-`None` domain value, compared against
`"healthcare"` exactly as the dynamic Python comparison does. -/
def getOntologicalInsights (query : String) (concepts : List String)
    (domain : Option String) : String :=
  if concepts.isEmpty then ""
  else
    let insights :=
      if domain = some "healthcare" then
        (healthcareInsightRules.filter (fun r => anyKeyword query r.1)).map (fun r => r.2)
      else []
    String.intercalate " | " (insights.take 4)

/-- Step 4, `RAGAgent._generate_response`.  The Gemini call is the oracle;
all confidence arithmetic happens only on the success path, and the caught
failure path fixes the error answer and zero confidence. -/
def generateResponse (generation : Except String String) (s : AgentState) : AgentState :=
  let rs1 := s.reasoning_steps ++
    ["Generating response using AI analysis with ontological reasoning"]
  let chunks := s.retrieved_chunks
  let chunkConcepts := (chunks.map (fun c => c.metadata.ontology_concepts)).flatten
  let insights := getOntologicalInsights s.query chunkConcepts s.domain
  match generation with
  | .ok answer =>
      let baseConfidence : ℚ := min 1 ((chunks.length : ℚ) * (2/10))
      let boost : ℚ := if insights ≠ "" then 1/10 else 0
      { s with final_response := answer,
               confidence := min 1 (baseConfidence + boost),
               reasoning_steps :=
                 rs1 ++ ["Generated comprehensive response with ontological insights"] }
  | .error e =>
      { s with final_response := "Error generating response: " ++ e,
               confidence := 0,
               reasoning_steps := rs1 ++ ["Error in response generation: " ++ e] }

/-- Step 5, `RAGAgent._validate_response` (pure): two cumulative
multiplicative penalties, each with its own log entry, then a closing log
entry.  The confidence updates and log appends are written separately here;
they interleave in the source but neither depends on the other. -/
def validateResponse (s : AgentState) : AgentState :=
  let response := s.final_response
  let conf1 := if response.length < 50 then s.confidence * (5/10) else s.confidence
  let conf2 := if containsCI response "error" then conf1 * (3/10) else conf1
  { s with confidence := conf2,
           reasoning_steps :=
             s.reasoning_steps ++ ["Validating response quality"]
               ++ (if response.length < 50 then
                     ["Response seems short, reduced confidence"] else [])
               ++ (if containsCI response "error" then
                     ["Error detected in response, reduced confidence"] else [])
               ++ ["Response validation complete"] }

/-- Model of `RAGAgent._run_graph`: the five workflow steps in their fixed order.
Each step catches its own failures, so the workflow itself never fails. -/
def runWorkflow (retrieval : Except String (List Chunk))
    (generation : Except String String) (s : AgentState) : AgentState :=
  validateResponse (generateResponse generation
    (analyzeRelevance (retrieveDocuments retrieval (analyzeQuery s))))

/-- The slice of `QueryResponse` the claims constrain (answer, confidence,
reasoning log, number of chunks analysed).  `sources`/`related_concepts`
are derived read-only views of the final chunk list and are not modelled. -/
structure QueryResponse where
  answer : String
  confidence : ℚ
  reasoning_steps : List String
  chunks_analyzed : Nat
deriving DecidableEq

/-- The initial state built at the top of `RAGAgent.process_query`. -/
def initialState (query : String) (domainFilter : Option String) : AgentState :=
  { query := query, domain := domainFilter, retrieved_chunks := [],
    final_response := "", reasoning_steps := [], confidence := 0,
    iteration_count := 0 }

/-- Model of `RAGAgent.process_query`: build the initial state, run the workflow and
package the response.  In the embedding every internal failure mode is a
value (an `.error` oracle outcome), so the function is total: this totality
is the formal rendering of the never-raises contract. -/
def processQuery (retrieval : Except String (List Chunk))
    (generation : Except String String)
    (query : String) (domainFilter : Option String) : QueryResponse :=
  let fs := runWorkflow retrieval generation (initialState query domainFilter)
  { answer := fs.final_response, confidence := fs.confidence,
    reasoning_steps := fs.reasoning_steps,
    chunks_analyzed := fs.retrieved_chunks.length }

/-! ## Comparative agent (`app/agents/comparative_agent.py`) -/

/-- Result of `GeminiClient.compare_documents` (a `ComparisonResult`). -/
structure CompareResult where
  similarities : List String
  differences : List String
  key_insights : List String
  overall_analysis : String
  confidence : ℚ
deriving DecidableEq

/-- Result of `GeminiClient.analyze_content` (an `AnalysisResult`). -/
structure DocAnalysis where
  summary : String
  key_points : List String
  insights : List String
  confidence : ℚ
deriving DecidableEq

/-- The four-field pairwise comparison record stored in the matrix. -/
structure CompRecord where
  similarities : List String
  differences : List String
  insights : List String
  confidence : ℚ
deriving DecidableEq

/-- A comparison-matrix value: either a pairwise record, or the plain error
string the matrix step stores when fewer than 2 documents are loaded.  The
synthesis and aggregation steps distinguish the two exactly as the Python
`isinstance(comparison, dict)` checks do. -/
inductive MatrixVal where
  | comp (r : CompRecord)
  | errMsg (msg : String)
deriving DecidableEq

/-- Python `dict` assignment on a string-keyed mapping modelled as an
insertion-ordered association list: overwrite in place, else append. -/
def upsert {α : Type} : List (String × α) → String → α → List (String × α)
  | [], k, v => [(k, v)]
  | (k0, v0) :: rest, k, v =>
      if k0 = k then (k, v) :: rest else (k0, v0) :: upsert rest k v

/-- Python `dict[k]` lookup with a default. -/
def lookupD {α : Type} : List (String × α) → String → α → α
  | [], _, d => d
  | (k0, v0) :: rest, k, d => if k0 = k then v0 else lookupD rest k d

/-- The index pairs `(i, j)` with `i < j`, realised on the element list in
the nested-loop order of `_create_comparison_matrix`. -/
def halfPairs {α : Type} : List α → List (α × α)
  | [] => []
  | x :: xs => xs.map (fun y => (x, y)) ++ halfPairs xs

/-- The comparative agent's `analysis_results` dictionary: per-document
summaries plus the aggregated similarity/difference/insight lists (absent
keys read through `dict.get(_, [])` are the empty list). -/
structure AnalysisResults where
  document_summaries : List (String × DocAnalysis)
  similarities : List String
  differences : List String
  key_insights : List String
deriving DecidableEq

/-- The comparative agent's session state (`ComparisonState`). -/
structure ComparisonState where
  document_ids : List String
  comparison_type : String
  focus_areas : List String
  document_contents : List (String × List Chunk)
  analysis_results : AnalysisResults
  comparison_matrix : List (String × MatrixVal)
  final_insights : String
  reasoning_steps : List String
  confidence : ℚ
deriving DecidableEq

/-- The per-document loop of `_load_documents`: accumulate loaded chunk
lists and per-document log entries until the oracle raises. -/
def loadLoop (oracle : String → Except String (List Chunk)) :
    List (String × List Chunk) → List String → List String →
    List (String × List Chunk) × List String × Option String
  | acc, logs, [] => (acc, logs, none)
  | acc, logs, docId :: rest =>
      match oracle docId with
      | .ok chunks =>
          loadLoop oracle (upsert acc docId chunks)
            (logs ++ ["Loaded " ++ toString chunks.length ++ " chunks from document " ++ docId])
            rest
      | .error e => (acc, logs, some e)

/-- Model of `ComparativeAgent._load_documents`.  On a failure mid-loop the log
entries appended so far persist (in-place mutation of the state's list),
the partially built local contents dictionary is discarded, and the error
entry is appended. -/
def loadDocuments (oracle : String → Except String (List Chunk))
    (s : ComparisonState) : ComparisonState :=
  let rs1 := s.reasoning_steps ++ ["Loading documents for comparison"]
  match loadLoop oracle [] [] s.document_ids with
  | (contents, logs, none) =>
      { s with document_contents := contents, reasoning_steps := rs1 ++ logs }
  | (_, logs, some e) =>
      { s with reasoning_steps := rs1 ++ logs ++ ["Error loading documents: " ++ e] }

/-- Focus-area filter of `_extract_key_sections`: with a non-empty focus
list, at least one area must occur (case-insensitively) in the content. -/
def focusPass (focusAreas : List String) (content : String) : Bool :=
  if focusAreas.isEmpty then true
  else focusAreas.any (fun area => hasSub (lowerStr area) (lowerStr content))

/-- Comparison-type filter of `_extract_key_sections`; `structure` and any
unrecognized type include every chunk. -/
def typePass (comparisonType : String) (content : String) : Bool :=
  if comparisonType = "coverage" then
    anyKeyword content ["coverage", "benefit", "limit", "exclusion"]
  else if comparisonType = "terms" then
    anyKeyword content ["term", "condition", "definition", "clause"]
  else true

/-- Model of `ComparativeAgent._extract_key_sections` (pure). -/
def extractKeySections (s : ComparisonState) : ComparisonState :=
  let rs1 := s.reasoning_steps ++ ["Extracting key sections for comparison"]
  let extracted := s.document_contents.map (fun p =>
    (p.1, p.2.filter (fun c =>
      focusPass s.focus_areas c.content && typePass s.comparison_type c.content)))
  { s with document_contents := extracted,
           reasoning_steps := rs1 ++ ["Extracted relevant sections from all documents"] }

/-- The per-document loop of `_perform_analysis`: analyse each document's
combined text, failing as a whole on the first raising oracle call. -/
def analysisLoop (oracle : String → Except String DocAnalysis) :
    List (String × DocAnalysis) → List (String × List Chunk) →
    Except String (List (String × DocAnalysis))
  | acc, [] => .ok acc
  | acc, (docId, chunks) :: rest =>
      match oracle (String.intercalate "\n\n" (chunks.map (fun c => c.content))) with
      | .ok a => analysisLoop oracle (upsert acc docId a) rest
      | .error e => .error e

/-- Model of `ComparativeAgent._perform_analysis`.  On success the whole
`analysis_results` dictionary is replaced by one holding only the fresh
summaries; on failure it is left untouched and the error is logged. -/
def performAnalysis (oracle : String → Except String DocAnalysis)
    (s : ComparisonState) : ComparisonState :=
  let rs1 := s.reasoning_steps ++ ["Performing detailed document analysis"]
  match analysisLoop oracle [] s.document_contents with
  | .ok sums =>
      { s with analysis_results :=
                 { document_summaries := sums, similarities := [],
                   differences := [], key_insights := [] },
               reasoning_steps := rs1 ++ ["Completed individual document analysis"] }
  | .error e =>
      { s with reasoning_steps := rs1 ++ ["Error in analysis: " ++ e] }

/-- The `"{doc1}_vs_{doc2}"` matrix key. -/
def pairKey (a b : String) : String :=
  a ++ "_vs_" ++ b

/-- The pairwise loop of `_create_comparison_matrix`: compare the joined
contents of each pair, failing as a whole on the first raising call. -/
def matrixLoop (oracle : String → String → Except String CompareResult)
    (contents : List (String × List Chunk)) :
    List (String × MatrixVal) → List (String × String) →
    Except String (List (String × MatrixVal))
  | acc, [] => .ok acc
  | acc, (d1, d2) :: rest =>
      let t1 := String.intercalate "\n" ((lookupD contents d1 []).map (fun c => c.content))
      let t2 := String.intercalate "\n" ((lookupD contents d2 []).map (fun c => c.content))
      match oracle t1 t2 with
      | .ok r =>
          matrixLoop oracle contents
            (upsert acc (pairKey d1 d2)
              (MatrixVal.comp { similarities := r.similarities,
                                differences := r.differences,
                                insights := r.key_insights,
                                confidence := r.confidence }))
            rest
      | .error e => .error e

/-- Model of `ComparativeAgent._create_comparison_matrix`.  With fewer than 2 loaded
documents the matrix is replaced by the one-entry error dictionary and the
step returns early (after its single opening log entry). -/
def createComparisonMatrix (oracle : String → String → Except String CompareResult)
    (s : ComparisonState) : ComparisonState :=
  let rs1 := s.reasoning_steps ++ ["Creating comparison matrix"]
  let docIds := s.document_contents.map (fun p => p.1)
  if docIds.length < 2 then
    { s with comparison_matrix :=
               [("error", MatrixVal.errMsg "Need at least 2 documents for comparison")],
             reasoning_steps := rs1 }
  else
    match matrixLoop oracle s.document_contents [] (halfPairs docIds) with
    | .ok m =>
        { s with comparison_matrix := m,
                 reasoning_steps :=
                   rs1 ++ ["Completed " ++ toString m.length ++ " pairwise comparisons"] }
    | .error e =>
        { s with reasoning_steps := rs1 ++ ["Error creating matrix: " ++ e] }

/-- The matrix values that are genuine comparison records — Python's
`isinstance(comparison, dict) and "confidence" in comparison` filter. -/
def matrixRecords (m : List (String × MatrixVal)) : List CompRecord :=
  m.filterMap (fun p =>
    match p.2 with
    | MatrixVal.comp r => some r
    | MatrixVal.errMsg _ => none)

/-- Model of `ComparativeAgent._generate_insights` (pure).  Python aggregates with
`list(set(...))`, whose iteration order is interpreter-dependent; the
embedding uses `List.dedup` as one canonical order. -/
def generateInsightsStep (s : ComparisonState) : ComparisonState :=
  let rs1 := s.reasoning_steps ++ ["Generating comprehensive insights"]
  let recs := matrixRecords s.comparison_matrix
  let ar := s.analysis_results
  { s with analysis_results :=
             { ar with
               similarities := ((recs.map (fun r => r.similarities)).flatten).dedup,
               differences := ((recs.map (fun r => r.differences)).flatten).dedup,
               key_insights := ((recs.map (fun r => r.insights)).flatten).dedup },
           reasoning_steps := rs1 ++ ["Aggregated insights from all comparisons"] }

/-- The formatted report of `_synthesize_results`.  The leading indentation
of the Python triple-quoted literal is not reproduced; no claim inspects
this text. -/
def synthesisReport (sims diffs ins : List String) (docCount : Nat) : String :=
  "COMPARISON SUMMARY:\n\nKey Similarities (" ++ toString sims.length ++ " found):\n"
    ++ String.intercalate "\n" ((sims.take 10).map (fun x => "• " ++ x))
    ++ "\n\nKey Differences (" ++ toString diffs.length ++ " found):\n"
    ++ String.intercalate "\n" ((diffs.take 10).map (fun x => "• " ++ x))
    ++ "\n\nImportant Insights (" ++ toString ins.length ++ " identified):\n"
    ++ String.intercalate "\n" ((ins.take 10).map (fun x => "• " ++ x))
    ++ "\n\nThis comparison analyzed " ++ toString docCount
    ++ " documents across multiple dimensions."

/-- Model of `ComparativeAgent._synthesize_results` (pure): format the report and set
the overall confidence to `sum/len` of the stored record confidences, `0.0`
when there are none. -/
def synthesizeResults (s : ComparisonState) : ComparisonState :=
  let rs1 := s.reasoning_steps ++ ["Synthesizing final results"]
  let confidences := (matrixRecords s.comparison_matrix).map (fun r => r.confidence)
  { s with final_insights :=
             synthesisReport s.analysis_results.similarities
               s.analysis_results.differences s.analysis_results.key_insights
               s.document_ids.length,
           confidence :=
             if confidences.isEmpty then 0
             else confidences.sum / (confidences.length : ℚ),
           reasoning_steps := rs1 ++ ["Synthesis complete"] }

/-! ## Direct two-document path (`ComparativeAgent.compare_documents`) -/

/-- A `ComparisonRequest`: ids, comparison type, optional focus areas. -/
structure ComparisonRequest where
  document_ids : List String
  comparison_type : String
  focus_areas : Option (List String)
deriving DecidableEq

/-- Document metadata gathered by the direct loading loop.  The exception
path stores a two-key dictionary (`filename`, `domain`) only, so the other
two fields are optional. -/
structure DocMeta where
  filename : String
  domain : String
  document_type : Option String
  chunk_count : Option Nat
deriving DecidableEq

/-- The slice of `ComparisonResponse` the claims constrain.  The
heterogeneous `comparison_matrix`/`metadata` dictionaries of this path are
not modelled; no claim inspects them. -/
structure ComparisonResponse where
  comparison_id : String
  document_ids : List String
  similarities : List String
  differences : List String
  insights : String
  confidence : ℚ
  reasoning_steps : List String
deriving DecidableEq

/-- Default metadata used on the failed-load branch of the direct loop. -/
def unknownMeta : DocMeta :=
  { filename := "Unknown", domain := "unknown",
    document_type := none, chunk_count := none }

/-- The per-document loading loop at the top of `compare_documents`: a
document with non-empty chunks contributes its joined content truncated to
3000 characters plus metadata and a log entry; an empty chunk list
contributes nothing; a raising lookup contributes an empty-content entry
with placeholder metadata and no log entry. -/
def directLoadLoop (oracle : String → Except String (List Chunk)) :
    List (String × String) → List (String × DocMeta) → List String →
    List String →
    List (String × String) × List (String × DocMeta) × List String
  | contents, meta, logs, [] => (contents, meta, logs)
  | contents, meta, logs, docId :: rest =>
      match oracle docId with
      | .ok [] => directLoadLoop oracle contents meta logs rest
      | .ok (c :: cs) =>
          let chunks := c :: cs
          let content :=
            (String.intercalate "\n\n" (chunks.map (fun ch => ch.content))).take 3000
          let md := c.metadata
          directLoadLoop oracle
            (upsert contents docId content)
            (upsert meta docId
              { filename := md.filename, domain := md.domain,
                document_type := some md.document_type,
                chunk_count := some chunks.length })
            (logs ++ ["Loaded " ++ toString chunks.length ++ " chunks from " ++ md.filename])
            rest
      | .error _ =>
          directLoadLoop oracle
            (upsert contents docId "") (upsert meta docId unknownMeta) logs rest

/-- The fixed insufficient-documents response of `compare_documents`
(everything except the reasoning trail is constant). -/
def insufficientResponse (req : ComparisonRequest) (rs : List String) : ComparisonResponse :=
  { comparison_id := "insufficient_docs",
    document_ids := req.document_ids,
    similarities := ["Not enough documents available for comparison"],
    differences := ["Cannot compare with fewer than 2 documents"],
    insights := "Comparison requires at least 2 documents with readable content.",
    confidence := 0,
    reasoning_steps := rs }

/-- The enhanced-insights narrative of `compare_documents`.  The leading
indentation of the Python triple-quoted f-string (stripped at the end) is
not reproduced; no claim inspects this text. -/
def enhancedInsights (doc1Name doc2Name domain : String) (r : CompareResult)
    (focusAreas : Option (List String)) : String :=
  "**Comparison Summary:**\nComparing \"" ++ doc1Name ++ "\" and \"" ++ doc2Name
    ++ "\" (" ++ domain ++ " documents)\n\n" ++ r.overall_analysis
    ++ "\n\n**Key Takeaways:**\n"
    ++ (if r.key_insights.isEmpty then
          "This comparison reveals important similarities and differences that could impact your decision-making."
        else String.intercalate " " r.key_insights)
    ++ "\n\n**Recommendation:**\nReview the specific differences highlighted above, particularly focusing on "
    ++ (match focusAreas with
        | some (a :: rest) => String.intercalate ", " (a :: rest)
        | _ => "the key areas of variation")
    ++ " to make an informed choice between these options."

/-- Model of `ComparativeAgent.compare_documents`, instrumented with the number of
pairwise comparison calls issued (the second component).  The source
derives `comparison_id` from `abs(hash(...))` of the concatenated ids —
a value that depends on the interpreter's randomized string hashing — so
the embedding keeps only the deterministic `"comp_"` prefix (with the
concatenated ids as a stand-in suffix); the claims rely only on this id
being distinct from the fixed `"insufficient_docs"` id. -/
def compareDocuments (loadOracle : String → Except String (List Chunk))
    (ontOracle : String → Except String Bool)
    (pairOracle : String → String → Except String CompareResult)
    (req : ComparisonRequest) : ComparisonResponse × Nat :=
  let rs0 := ["Starting comprehensive document analysis"]
  let loaded := directLoadLoop loadOracle [] [] [] req.document_ids
  let contents := loaded.1
  let meta := loaded.2.1
  let rs1 := rs0 ++ loaded.2.2
  if contents.length < 2 then
    (insufficientResponse req (rs1 ++ ["Insufficient documents for comparison"]), 0)
  else
    let docIds := contents.map (fun p => p.1)
    let doc1Id := docIds.headD ""
    let doc2Id := (docIds.drop 1).headD ""
    let doc1 := lookupD contents doc1Id ""
    let doc2 := lookupD contents doc2Id ""
    let meta1 := lookupD meta doc1Id unknownMeta
    let meta2 := lookupD meta doc2Id unknownMeta
    let rs2 := rs1 ++ ["Analyzing documents with AI comparison engine"]
    let domain := meta1.domain
    let focus := req.focus_areas.getD []
    let _ontologyContext :=
      match ontOracle domain with
      | .ok true => "Domain: " ++ domain ++ ", Focus areas: " ++ String.intercalate ", " focus
      | .ok false => ""
      | .error _ => ""
    match pairOracle doc1 doc2 with
    | .error e =>
        ({ comparison_id := "error",
           document_ids := req.document_ids,
           similarities := [], differences := [],
           insights := "Error performing comparison: " ++ e,
           confidence := 0,
           reasoning_steps := ["Error: " ++ e] }, 1)
    | .ok r =>
        let rs3 := rs2 ++
          [ "Generated AI-powered comparison analysis",
            "Enhanced insights with ontological context",
            "Completed comprehensive document comparison" ]
        ({ comparison_id := "comp_" ++ String.join req.document_ids,
           document_ids := req.document_ids,
           similarities :=
             if r.similarities.isEmpty then ["Documents share common structural elements"]
             else r.similarities,
           differences :=
             if r.differences.isEmpty then ["Documents have distinct characteristics"]
             else r.differences,
           insights := enhancedInsights meta1.filename meta2.filename domain r req.focus_areas,
           confidence := r.confidence,
           reasoning_steps := rs3 }, 1)

/-! ## Auxiliary definitions used by the statements -/

/-- The combined multiplicative penalty applied by the validation step. -/
def validationFactor (response : String) : ℚ :=
  (if response.length < 50 then 5/10 else 1)
    * (if containsCI response "error" then 3/10 else 1)

/-- Stated from the spec's words: the arithmetic mean of a list of
confidences, exactly `0.0` for the empty list.  Compared against the
confidence computed by `synthesizeResults`. -/
def specArithMean (l : List ℚ) : ℚ :=
  if l = [] then 0 else l.sum / (l.length : ℚ)

/-- Does a requested document id resolve to non-empty content (the claim's
notion): its lookup succeeds and returns a non-empty chunk list? -/
def resolvesNonEmpty (oracle : String → Except String (List Chunk))
    (docId : String) : Bool :=
  match oracle docId with
  | .ok chunks => !chunks.isEmpty
  | .error _ => false

/-- Does a requested document id contribute an entry to the direct loading
loop's contents map (the code's notion): its lookup returns non-empty
chunks, or raises (in which case an empty-content entry is stored)? -/
def contributesEntry (oracle : String → Except String (List Chunk))
    (docId : String) : Bool :=
  match oracle docId with
  | .ok chunks => !chunks.isEmpty
  | .error _ => true

/-- Append a key if it is not already present (the key-set effect of one
`upsert`). -/
def addKey (ks : List String) (k : String) : List String :=
  if k ∈ ks then ks else ks ++ [k]

/-- The comparison record stored for one pair by the matrix loop when the
comparison oracle is the total function `f`. -/
def recordOf (f : String → String → CompareResult)
    (contents : List (String × List Chunk)) (p : String × String) : CompRecord :=
  let r := f (String.intercalate "\n" ((lookupD contents p.1 []).map (fun c => c.content)))
             (String.intercalate "\n" ((lookupD contents p.2 []).map (fun c => c.content)))
  { similarities := r.similarities, differences := r.differences,
    insights := r.key_insights, confidence := r.confidence }

/-! ## Concrete sample data for witnesses and counterexamples -/

/-- Sample chunk metadata. -/
def sampleMeta : ChunkMeta :=
  { filename := "plan.pdf", page_number := "1", domain := "healthcare",
    document_type := "policy", ontology_concepts := ["Premium"],
    chunk_type := "text" }

/-- Sample chunk metadata with no ontology concepts. -/
def bareMeta : ChunkMeta :=
  { filename := "plan.pdf", page_number := "1", domain := "healthcare",
    document_type := "policy", ontology_concepts := [], chunk_type := "text" }

/-- Sample chunk at a given retrieval distance. -/
def sampleChunk (d : ℚ) : Chunk :=
  { content := "Some document content.", metadata := sampleMeta, distance := some d }

/-- An agent state holding one far-away chunk, used as a witness input. -/
def oneChunkState : AgentState :=
  { query := "q", domain := some "healthcare",
    retrieved_chunks := [sampleChunk 3], final_response := "",
    reasoning_steps := [], confidence := 0, iteration_count := 0 }

/-- An agent state about to be validated: short answer containing
"Error", zero confidence. -/
def validationSample : AgentState :=
  { query := "q", domain := some "healthcare", retrieved_chunks := [],
    final_response := "Error: too short", reasoning_steps := [],
    confidence := 0, iteration_count := 1 }

/-- An agent state whose chunks carry no ontology concepts. -/
def noConceptState : AgentState :=
  { query := "What is the monthly premium?", domain := some "healthcare",
    retrieved_chunks :=
      [ { content := "Premium is $200.", metadata := bareMeta, distance := some (1/10) } ],
    final_response := "", reasoning_steps := [], confidence := 0,
    iteration_count := 1 }

/-- The end-to-end scenario query of the spec (C5). -/
def c5query : String :=
  "What is the monthly premium?"

/-- The six retrieved chunks of the C5 scenario, with distances
0.1, 0.3, 1.9, 2.5, 0.2, 3.0. -/
def c5chunks : List Chunk :=
  [ sampleChunk (1/10), sampleChunk (3/10), sampleChunk (19/10),
    sampleChunk (25/10), sampleChunk (2/10), sampleChunk 3 ]

/-- The C5 scenario state after the analyze, retrieve and filter steps. -/
def c5afterFilter : AgentState :=
  analyzeRelevance (retrieveDocuments (.ok c5chunks)
    (analyzeQuery (initialState c5query none)))

/-- The C5 scenario state entering validation (generation succeeds with a
placeholder answer; the answer text plays no role before validation). -/
def c5beforeValidation : AgentState :=
  generateResponse (.ok "The monthly premium stated in the document is $200 per month.")
    c5afterFilter

/-- A two-document comparison request (C2 counterexample input). -/
def c2request : ComparisonRequest :=
  { document_ids := ["a", "b"], comparison_type := "general", focus_areas := none }

/-- A chunk lookup whose every call raises. -/
def failingLoad : String → Except String (List Chunk) :=
  fun _ => .error "db down"

/-- An ontology oracle whose every call raises. -/
def failingOntology : String → Except String Bool :=
  fun _ => .error "no ontology"

/-- A pairwise comparison oracle returning a fixed result. -/
def fixedPair : String → String → Except String CompareResult :=
  fun _ _ => .ok { similarities := ["s"], differences := ["d"], key_insights := [],
                   overall_analysis := "overall", confidence := 7/10 }

/-- A single-document comparison request (C2 witness input). -/
def c2oneDocRequest : ComparisonRequest :=
  { document_ids := ["a"], comparison_type := "general", focus_areas := none }

/-- A chunk lookup that returns one chunk for every id. -/
def okLoad : String → Except String (List Chunk) :=
  fun _ => .ok [sampleChunk (1/10)]

/-- A content-bearing chunk with no distance, for comparison states. -/
def plainChunk : Chunk :=
  { content := "Policy text.", metadata := sampleMeta, distance := none }

/-- A comparison state whose four loaded documents all hold content but
whose ids embed the pair-key separator, forcing a key collision
(`"a" + "_vs_" + "b_vs_c"` and `"a_vs_b" + "_vs_" + "c"` coincide). -/
def c3state : ComparisonState :=
  { document_ids := ["a", "b_vs_c", "a_vs_b", "c"],
    comparison_type := "general", focus_areas := [],
    document_contents :=
      [ ("a", [plainChunk]), ("b_vs_c", [plainChunk]),
        ("a_vs_b", [plainChunk]), ("c", [plainChunk]) ],
    analysis_results :=
      { document_summaries := [], similarities := [], differences := [],
        key_insights := [] },
    comparison_matrix := [], final_insights := "", reasoning_steps := [],
    confidence := 0 }

/-- A total comparison oracle with a fixed result, in `Except` form. -/
def c3oracle : String → String → Except String CompareResult :=
  fun _ _ => .ok { similarities := [], differences := [], key_insights := [],
                   overall_analysis := "", confidence := 1/2 }

/-- A comparison state with two stored pairwise records (confidences 0.8
and 0.6) plus the matrix-level error entry, used as a witness input. -/
def c4state : ComparisonState :=
  { document_ids := ["a", "b"], comparison_type := "general", focus_areas := [],
    document_contents := [("a", [plainChunk]), ("b", [plainChunk])],
    analysis_results :=
      { document_summaries := [], similarities := ["s"], differences := ["d"],
        key_insights := ["i"] },
    comparison_matrix :=
      [ ("a_vs_b", MatrixVal.comp
          { similarities := ["s"], differences := ["d"], insights := ["i"],
            confidence := 8/10 }),
        ("a_vs_c", MatrixVal.comp
          { similarities := [], differences := [], insights := [],
            confidence := 6/10 }) ],
    final_insights := "", reasoning_steps := [], confidence := 0 }

/-- A comparison state whose matrix holds no records at all. -/
def emptyMatrixState : ComparisonState :=
  { c4state with comparison_matrix := [] }

/-- A comparison state with two loaded content-bearing documents whose ids
contain no underscore. -/
def c3goodState : ComparisonState :=
  { c3state with document_ids := ["a", "b"],
                 document_contents := [("a", [plainChunk]), ("b", [plainChunk])] }

/-- A total comparison function with a fixed result. -/
def c3f : String → String → CompareResult :=
  fun _ _ => { similarities := [], differences := [], key_insights := [],
               overall_analysis := "", confidence := 1/2 }

/-! ## Helper lemmas -/

/-- The validation step multiplies the confidence by its combined factor. -/
theorem validateResponse_confidence_eq (s : AgentState) :
    (validateResponse s).confidence = s.confidence * validationFactor s.final_response := by
  simp only [validateResponse, validationFactor]
  split_ifs <;> ring

/-- The validation factor lies in the half-open interval (0, 1]. -/
theorem validationFactor_mem (r : String) :
    0 < validationFactor r ∧ validationFactor r ≤ 1 := by
  unfold validationFactor
  split_ifs <;> norm_num

/-- The validation step does not change the answer text. -/
theorem validateResponse_answer_eq (s : AgentState) :
    (validateResponse s).final_response = s.final_response := rfl

/-- Concept lists of chunks that all carry none flatten to the empty list. -/
theorem flatten_concepts_nil (l : List Chunk)
    (h : ∀ c ∈ l, c.metadata.ontology_concepts = []) :
    (l.map (fun c => c.metadata.ontology_concepts)).flatten = [] := by
  induction l with
  | nil => rfl
  | cons c t ih =>
      simp only [List.map_cons, List.flatten_cons, h c (by simp)]
      exact ih (fun x hx => h x (by simp [hx]))

/-! ## C6: the relevance filter never starves a non-empty chunk set -/

/-- C6: for every non-empty input chunk list, the relevance-filter step
returns a non-empty chunk list; when the distance threshold eliminates
every chunk, the first 3 unfiltered chunks are retained instead. -/
theorem relevance_filter_never_starves (s : AgentState)
    (h : s.retrieved_chunks ≠ []) :
    (analyzeRelevance s).retrieved_chunks ≠ [] := by
  rcases hc : s.retrieved_chunks with _ | ⟨a, t⟩
  · exact absurd hc h
  · by_cases hf : (a :: t).filter chunkPasses = []
    · simp [analyzeRelevance, hc, hf]
    · simp only [analyzeRelevance, hc]
      rcases hg : (a :: t).filter chunkPasses with _ | ⟨b, u⟩
      · exact absurd hg hf
      · simp [hg]

/-- Witness for C6 at a concrete one-chunk state. -/
theorem relevance_filter_never_starves_witness :
    (analyzeRelevance oneChunkState).retrieved_chunks ≠ [] :=
  relevance_filter_never_starves oneChunkState (by simp [oneChunkState])

/-! ## C7: the relevance filter output is at most 5 and never grows -/

/-- C7: for every input chunk list, the relevance-filter output has length
at most 5 and at most the input length. -/
theorem relevance_filter_length_bounds (s : AgentState) :
    (analyzeRelevance s).retrieved_chunks.length ≤ 5 ∧
    (analyzeRelevance s).retrieved_chunks.length ≤ s.retrieved_chunks.length := by
  have hfil := List.length_filter_le chunkPasses s.retrieved_chunks
  simp only [analyzeRelevance]
  split_ifs <;> simp [List.length_take] <;> omega

/-! ## C8: validation penalties are multiplicative and non-increasing -/

/-- C8: entering validation with confidence in [0, 1], the output
confidence never exceeds the input; it is the input times 0.5 when only the
short-answer penalty fires, times 0.3 when only the error-substring penalty
fires, and times 0.15 when both fire. -/
theorem validation_confidence_monotone (s : AgentState)
    (h0 : 0 ≤ s.confidence) (h1 : s.confidence ≤ 1) :
    (validateResponse s).confidence ≤ s.confidence ∧
    (s.final_response.length < 50 → containsCI s.final_response "error" = false →
      (validateResponse s).confidence = s.confidence * (5/10)) ∧
    (¬ s.final_response.length < 50 → containsCI s.final_response "error" = true →
      (validateResponse s).confidence = s.confidence * (3/10)) ∧
    (s.final_response.length < 50 → containsCI s.final_response "error" = true →
      (validateResponse s).confidence = s.confidence * (15/100)) := by
  have hb := validationFactor_mem s.final_response
  refine ⟨?_, ?_, ?_, ?_⟩
  · rw [validateResponse_confidence_eq]
    exact mul_le_of_le_one_right h0 hb.2
  · intro hlen herr
    rw [validateResponse_confidence_eq]
    unfold validationFactor
    simp [hlen, herr]
  · intro hlen herr
    rw [validateResponse_confidence_eq]
    unfold validationFactor
    simp [hlen, herr]
  · intro hlen herr
    rw [validateResponse_confidence_eq]
    unfold validationFactor
    simp only [hlen, herr, if_pos, if_true]
    ring

/-- Witness for C8 at a concrete state whose short answer contains
"Error". -/
theorem validation_confidence_monotone_witness :
    (validateResponse validationSample).confidence ≤ validationSample.confidence ∧
    (validateResponse validationSample).confidence
      = validationSample.confidence * (15/100) := by
  have h := validation_confidence_monotone validationSample
    (by simp [validationSample]) (by simp [validationSample])
  exact ⟨h.1, h.2.2.2 (by decide) (by decide)⟩

/-! ## C10: no chunk concepts means no insight and no boost -/

/-- C10: with an empty concept list the ontological-insight lookup returns
the empty string for every query and domain; hence when no surviving chunk
carries concepts, the generation confidence is exactly the base value with
no 0.1 boost. -/
theorem insights_require_concepts :
    (∀ (q : String) (d : Option String), getOntologicalInsights q [] d = "") ∧
    (∀ (answer : String) (s : AgentState),
      (∀ c ∈ s.retrieved_chunks, c.metadata.ontology_concepts = []) →
      getOntologicalInsights s.query
          ((s.retrieved_chunks.map (fun c => c.metadata.ontology_concepts)).flatten)
          s.domain = "" ∧
        (generateResponse (.ok answer) s).confidence
          = min 1 ((s.retrieved_chunks.length : ℚ) * (2/10))) := by
  constructor
  · intro q d; rfl
  · intro answer s h
    have hfl := flatten_concepts_nil s.retrieved_chunks h
    constructor
    · rw [hfl]; rfl
    · simp only [generateResponse, hfl]
      have : getOntologicalInsights s.query [] s.domain = "" := rfl
      simp only [this]
      simp only [ne_eq, not_true_eq_false, if_neg, if_false, add_zero]
      rw [← min_assoc, min_self]

/-- Witness for C10 at a concrete state whose single chunk has no ontology
concepts. -/
theorem insights_require_concepts_witness :
    getOntologicalInsights noConceptState.query
        ((noConceptState.retrieved_chunks.map (fun c => c.metadata.ontology_concepts)).flatten)
        noConceptState.domain = "" ∧
      (generateResponse (.ok "answer") noConceptState).confidence
        = min 1 ((noConceptState.retrieved_chunks.length : ℚ) * (2/10)) :=
  insights_require_concepts.2 "answer" noConceptState (by decide)

/-! ## C4: the synthesis confidence is the arithmetic mean -/

/-- C4: the synthesis step sets the overall confidence to the arithmetic
mean of the confidences of all stored pairwise comparison records, and to
exactly 0.0 when the matrix holds no records. -/
theorem synthesis_confidence_is_mean (s : ComparisonState) :
    (synthesizeResults s).confidence
      = specArithMean ((matrixRecords s.comparison_matrix).map (fun r => r.confidence)) ∧
    (matrixRecords s.comparison_matrix = [] → (synthesizeResults s).confidence = 0) := by
  constructor
  · simp only [synthesizeResults, specArithMean, List.isEmpty_iff]
  · intro h
    simp [synthesizeResults, h]

/-- Witness for C4 at a concrete state with an empty matrix. -/
theorem synthesis_confidence_is_mean_witness :
    (synthesizeResults emptyMatrixState).confidence = 0 :=
  (synthesis_confidence_is_mean emptyMatrixState).2 rfl

/-! ## C9: the reasoning log is append-only in every pipeline step -/

/-- C9: every pipeline step of either agent extends the reasoning log by at
least one entry — on its success path and on its caught-failure path alike
(the oracle arguments range over both outcomes) — and leaves the existing
entries as an unchanged prefix. -/
theorem reasoning_log_append_only :
    (∀ s : AgentState, ∃ t, t ≠ [] ∧
      (analyzeQuery s).reasoning_steps = s.reasoning_steps ++ t) ∧
    (∀ (r : Except String (List Chunk)) (s : AgentState), ∃ t, t ≠ [] ∧
      (retrieveDocuments r s).reasoning_steps = s.reasoning_steps ++ t) ∧
    (∀ s : AgentState, ∃ t, t ≠ [] ∧
      (analyzeRelevance s).reasoning_steps = s.reasoning_steps ++ t) ∧
    (∀ (g : Except String String) (s : AgentState), ∃ t, t ≠ [] ∧
      (generateResponse g s).reasoning_steps = s.reasoning_steps ++ t) ∧
    (∀ s : AgentState, ∃ t, t ≠ [] ∧
      (validateResponse s).reasoning_steps = s.reasoning_steps ++ t) ∧
    (∀ (o : String → Except String (List Chunk)) (s : ComparisonState), ∃ t, t ≠ [] ∧
      (loadDocuments o s).reasoning_steps = s.reasoning_steps ++ t) ∧
    (∀ s : ComparisonState, ∃ t, t ≠ [] ∧
      (extractKeySections s).reasoning_steps = s.reasoning_steps ++ t) ∧
    (∀ (o : String → Except String DocAnalysis) (s : ComparisonState), ∃ t, t ≠ [] ∧
      (performAnalysis o s).reasoning_steps = s.reasoning_steps ++ t) ∧
    (∀ (o : String → String → Except String CompareResult) (s : ComparisonState), ∃ t, t ≠ [] ∧
      (createComparisonMatrix o s).reasoning_steps = s.reasoning_steps ++ t) ∧
    (∀ s : ComparisonState, ∃ t, t ≠ [] ∧
      (generateInsightsStep s).reasoning_steps = s.reasoning_steps ++ t) ∧
    (∀ s : ComparisonState, ∃ t, t ≠ [] ∧
      (synthesizeResults s).reasoning_steps = s.reasoning_steps ++ t) := by
  refine ⟨?_, ?_, ?_, ?_, ?_, ?_, ?_, ?_, ?_, ?_, ?_⟩
  · intro s
    exact ⟨"Analyzing query intent and domain" ::
      ["Identified domain: " ++ (match s.domain with
        | some d => if d = "" then detectDomain s.query else d
        | none => detectDomain s.query)],
      by simp, by simp [analyzeQuery]⟩
  · intro r s
    cases r with
    | ok chunks =>
        exact ⟨"Retrieving relevant documents" ::
          ["Retrieved " ++ toString chunks.length ++ " relevant chunks"],
          by simp, by simp [retrieveDocuments]⟩
    | error e =>
        exact ⟨"Retrieving relevant documents" ::
          ["Error in document retrieval: " ++ e],
          by simp, by simp [retrieveDocuments]⟩
  · intro s
    exact ⟨"Analyzing relevance of retrieved content" ::
      ["Filtered to " ++ toString
          (if (s.retrieved_chunks.filter chunkPasses).isEmpty
              && !s.retrieved_chunks.isEmpty then
            s.retrieved_chunks.take 3
          else s.retrieved_chunks.filter chunkPasses).length
        ++ " highly relevant chunks"],
      by simp, by simp [analyzeRelevance]⟩
  · intro g s
    cases g with
    | ok answer =>
        exact ⟨"Generating response using AI analysis with ontological reasoning" ::
          ["Generated comprehensive response with ontological insights"],
          by simp, by simp [generateResponse]⟩
    | error e =>
        exact ⟨"Generating response using AI analysis with ontological reasoning" ::
          ["Error in response generation: " ++ e],
          by simp, by simp [generateResponse]⟩
  · intro s
    exact ⟨"Validating response quality" ::
      ((if s.final_response.length < 50 then
          ["Response seems short, reduced confidence"] else [])
        ++ (if containsCI s.final_response "error" then
              ["Error detected in response, reduced confidence"] else [])
        ++ ["Response validation complete"]),
      by simp, by simp [validateResponse]⟩
  · intro o s
    rcases h : loadLoop o [] [] s.document_ids with ⟨contents, logs, err⟩
    cases err with
    | none =>
        exact ⟨"Loading documents for comparison" :: logs,
          by simp, by simp [loadDocuments, h]⟩
    | some e =>
        exact ⟨"Loading documents for comparison" ::
          (logs ++ ["Error loading documents: " ++ e]),
          by simp, by simp [loadDocuments, h]⟩
  · intro s
    exact ⟨"Extracting key sections for comparison" ::
      ["Extracted relevant sections from all documents"],
      by simp, by simp [extractKeySections]⟩
  · intro o s
    rcases h : analysisLoop o [] s.document_contents with e | sums
    · exact ⟨"Performing detailed document analysis" ::
        ["Error in analysis: " ++ e],
        by simp, by simp [performAnalysis, h]⟩
    · exact ⟨"Performing detailed document analysis" ::
        ["Completed individual document analysis"],
        by simp, by simp [performAnalysis, h]⟩
  · intro o s
    by_cases hlen : s.document_contents.length < 2
    · exact ⟨["Creating comparison matrix"],
        by simp, by simp [createComparisonMatrix, hlen]⟩
    · rcases h : matrixLoop o s.document_contents []
          (halfPairs (s.document_contents.map (fun p => p.1))) with e | m
      · exact ⟨"Creating comparison matrix" ::
          ["Error creating matrix: " ++ e],
          by simp, by simp [createComparisonMatrix, hlen, h]⟩
      · exact ⟨"Creating comparison matrix" ::
          ["Completed " ++ toString m.length ++ " pairwise comparisons"],
          by simp, by simp [createComparisonMatrix, hlen, h]⟩
  · intro s
    exact ⟨"Generating comprehensive insights" ::
      ["Aggregated insights from all comparisons"],
      by simp, by simp [generateInsightsStep]⟩
  · intro s
    exact ⟨"Synthesizing final results" :: ["Synthesis complete"],
      by simp, by simp [synthesizeResults]⟩

/-! ## C1: the query pipeline is total with confidence in [0, 1] -/

/-- The generation step always leaves the confidence inside [0, 1]. -/
theorem generateResponse_confidence_mem (g : Except String String) (s : AgentState) :
    0 ≤ (generateResponse g s).confidence ∧ (generateResponse g s).confidence ≤ 1 := by
  cases g with
  | error e => simp [generateResponse]
  | ok a =>
      simp only [generateResponse]
      constructor
      · apply le_min
        · norm_num
        · have h1 : (0:ℚ) ≤ (s.retrieved_chunks.length : ℚ) * (2/10) := by positivity
          have h2 : (0:ℚ) ≤ min 1 ((s.retrieved_chunks.length : ℚ) * (2/10)) :=
            le_min (by norm_num) h1
          split_ifs <;> linarith
      · exact min_le_left _ _

/-- With no surviving chunks the generation step's confidence is zero
(base 0, no boost), on success and failure alike. -/
theorem generateResponse_conf_zero_of_nil (g : Except String String) (s : AgentState)
    (h : s.retrieved_chunks = []) : (generateResponse g s).confidence = 0 := by
  cases g with
  | error e => simp [generateResponse]
  | ok a =>
      simp [generateResponse, h, getOntologicalInsights]

/-- A failed retrieval leaves the initial empty chunk list through the
filter step. -/
theorem chunks_nil_of_retrieval_error (e : String) (query : String)
    (domainFilter : Option String) :
    (analyzeRelevance (retrieveDocuments (Except.error e)
      (analyzeQuery (initialState query domainFilter)))).retrieved_chunks = [] := by
  simp [analyzeRelevance, retrieveDocuments, analyzeQuery, initialState]

/-- C1: for every query request and every outcome of the retrieval and
generation collaborators, `process_query` returns a well-formed response
with confidence in [0.0, 1.0] (totality of this function is the embedding
of the never-raises contract); a generation failure yields the degraded
response with confidence 0.0 and the explanatory error answer, and a
retrieval failure also yields confidence 0.0. -/
theorem process_query_total_and_bounded
    (retrieval : Except String (List Chunk)) (generation : Except String String)
    (query : String) (domainFilter : Option String) :
    0 ≤ (processQuery retrieval generation query domainFilter).confidence ∧
    (processQuery retrieval generation query domainFilter).confidence ≤ 1 ∧
    (∀ e, generation = .error e →
      (processQuery retrieval generation query domainFilter).answer
          = "Error generating response: " ++ e ∧
        (processQuery retrieval generation query domainFilter).confidence = 0) ∧
    (∀ e, retrieval = .error e →
      (processQuery retrieval generation query domainFilter).confidence = 0) := by
  have hmem := generateResponse_confidence_mem generation
    (analyzeRelevance (retrieveDocuments retrieval (analyzeQuery (initialState query domainFilter))))
  have hfac := validationFactor_mem
    (generateResponse generation
      (analyzeRelevance (retrieveDocuments retrieval
        (analyzeQuery (initialState query domainFilter))))).final_response
  have hconf : (processQuery retrieval generation query domainFilter).confidence
      = (validateResponse (generateResponse generation
          (analyzeRelevance (retrieveDocuments retrieval
            (analyzeQuery (initialState query domainFilter)))))).confidence := rfl
  have hans : (processQuery retrieval generation query domainFilter).answer
      = (validateResponse (generateResponse generation
          (analyzeRelevance (retrieveDocuments retrieval
            (analyzeQuery (initialState query domainFilter)))))).final_response := rfl
  refine ⟨?_, ?_, ?_, ?_⟩
  · rw [hconf, validateResponse_confidence_eq]
    exact mul_nonneg hmem.1 hfac.1.le
  · rw [hconf, validateResponse_confidence_eq]
    calc _ ≤ (generateResponse generation
          (analyzeRelevance (retrieveDocuments retrieval
            (analyzeQuery (initialState query domainFilter))))).confidence :=
        mul_le_of_le_one_right hmem.1 hfac.2
      _ ≤ 1 := hmem.2
  · intro e he
    subst he
    constructor
    · rw [hans, validateResponse_answer_eq]
      simp [generateResponse]
    · rw [hconf, validateResponse_confidence_eq]
      simp [generateResponse]
  · intro e he
    subst he
    rw [hconf, validateResponse_confidence_eq,
      generateResponse_conf_zero_of_nil generation _
        (chunks_nil_of_retrieval_error e query domainFilter), zero_mul]

/-- Witness for C1 at concrete failing oracles. -/
theorem process_query_total_and_bounded_witness :
    (processQuery (.error "down") (.error "boom") "q" none).answer
        = "Error generating response: " ++ "boom" ∧
      (processQuery (.error "down") (.error "boom") "q" none).confidence = 0 :=
  (process_query_total_and_bounded (.error "down") (.error "boom") "q" none).2.2.1 "boom" rfl

/-! ## C2: the insufficient-documents guard of the direct path -/

/-- One `upsert` extends the key list by `addKey`. -/
theorem upsert_keys {α : Type} (l : List (String × α)) (k : String) (v : α) :
    (upsert l k v).map Prod.fst = addKey (l.map Prod.fst) k := by
  induction l with
  | nil => simp [upsert, addKey]
  | cons p rest ih =>
      obtain ⟨k0, v0⟩ := p
      by_cases h : k0 = k
      · subst h
        simp [upsert, addKey]
      · simp only [upsert, if_neg h, List.map_cons, ih, addKey]
        by_cases hm : k ∈ rest.map Prod.fst
        · simp [hm, Ne.symm h]
        · simp [hm, Ne.symm h]

/-- The key list built by the direct loading loop is the `addKey`-fold over
the requested ids that contribute an entry. -/
theorem directLoadLoop_keys (oracle : String → Except String (List Chunk)) :
    ∀ (ids : List String) (contents : List (String × String))
      (meta : List (String × DocMeta)) (logs : List String),
    ((directLoadLoop oracle contents meta logs ids).1).map Prod.fst
      = (ids.filter (contributesEntry oracle)).foldl addKey (contents.map Prod.fst) := by
  intro ids
  induction ids with
  | nil => intro contents meta logs; rfl
  | cons docId rest ih =>
      intro contents meta logs
      cases h : oracle docId with
      | ok chunks =>
          cases chunks with
          | nil =>
              simp only [directLoadLoop, h, List.filter_cons]
              simp [contributesEntry, h, ih]
          | cons c cs =>
              simp only [directLoadLoop, h, List.filter_cons]
              simp [contributesEntry, h, ih, upsert_keys]
      | error e =>
          simp only [directLoadLoop, h, List.filter_cons]
          simp [contributesEntry, h, ih, upsert_keys]

/-- Folding `addKey` preserves key-list distinctness. -/
theorem foldl_addKey_nodup (l : List String) :
    ∀ ks : List String, ks.Nodup → (l.foldl addKey ks).Nodup := by
  induction l with
  | nil => intro ks h; exact h
  | cons a t ih =>
      intro ks h
      rw [List.foldl_cons]
      refine ih _ ?_
      unfold addKey
      split_ifs with hmem
      · exact h
      · refine h.append (List.nodup_singleton a) ?_
        intro x hx hx'
        simp only [List.mem_singleton] at hx'
        subst hx'
        exact hmem hx

/-- Folding `addKey` collects exactly the union of the key sets. -/
theorem foldl_addKey_toFinset (l : List String) :
    ∀ ks : List String, (l.foldl addKey ks).toFinset = ks.toFinset ∪ l.toFinset := by
  induction l with
  | nil => intro ks; simp
  | cons a t ih =>
      intro ks
      rw [List.foldl_cons, ih]
      unfold addKey
      split_ifs with hmem
      · rw [List.toFinset_cons, Finset.union_insert, Finset.insert_eq_self.mpr]
        exact Finset.mem_union_left _ (List.mem_toFinset.mpr hmem)
      · rw [List.toFinset_append, Finset.union_assoc, List.toFinset_cons,
          List.toFinset_nil, Finset.insert_union, Finset.empty_union,
          List.toFinset_cons]

/-- The number of entries in the direct loading loop's contents map equals
the number of distinct requested ids that contribute an entry. -/
theorem directLoad_contents_length (oracle : String → Except String (List Chunk))
    (ids : List String) :
    ((directLoadLoop oracle [] [] [] ids).1).length
      = (ids.filter (contributesEntry oracle)).toFinset.card := by
  have hkeys := directLoadLoop_keys oracle ids [] [] []
  simp only [List.map_nil] at hkeys
  have hlen : ((directLoadLoop oracle [] [] [] ids).1).length
      = (((directLoadLoop oracle [] [] [] ids).1).map Prod.fst).length := by simp
  rw [hlen, hkeys]
  have hnd := foldl_addKey_nodup (ids.filter (contributesEntry oracle)) [] (by simp)
  rw [← List.toFinset_card_of_nodup hnd, foldl_addKey_toFinset]
  simp

/-- Counterexample to C2 as stated: with two requested ids whose lookups
both raise, zero ids resolve to non-empty content, yet the guard does not
short-circuit — one comparison call is attempted and the response is not
the insufficient-documents response (a raising lookup still contributes an
empty-content entry that the guard counts). -/
theorem insufficient_guard_counterexample :
    (c2request.document_ids.filter (resolvesNonEmpty failingLoad)).length = 0 ∧
    (compareDocuments failingLoad failingOntology fixedPair c2request).2 = 1 ∧
    (compareDocuments failingLoad failingOntology fixedPair c2request).1.comparison_id
      ≠ "insufficient_docs" ∧
    (compareDocuments failingLoad failingOntology fixedPair c2request).1.confidence ≠ 0 := by
  refine ⟨by decide, by decide, by decide, ?_⟩
  have h : (compareDocuments failingLoad failingOntology fixedPair c2request).1.confidence
      = 7/10 := rfl
  rw [h]
  norm_num

/-- C2 (amended): when fewer than 2 distinct requested ids contribute an
entry to the loaded-contents map — an id contributes when its lookup
returns non-empty chunks, or raises (stored with empty content) —
`compare_documents` short-circuits to the fixed insufficient-documents
response with confidence 0.0 and zero comparison calls. -/
theorem insufficient_guard_shortcircuits
    (loadOracle : String → Except String (List Chunk))
    (ontOracle : String → Except String Bool)
    (pairOracle : String → String → Except String CompareResult)
    (req : ComparisonRequest)
    (h : (req.document_ids.filter (contributesEntry loadOracle)).toFinset.card < 2) :
    (compareDocuments loadOracle ontOracle pairOracle req).2 = 0 ∧
    (compareDocuments loadOracle ontOracle pairOracle req).1.comparison_id
      = "insufficient_docs" ∧
    (compareDocuments loadOracle ontOracle pairOracle req).1.confidence = 0 ∧
    (compareDocuments loadOracle ontOracle pairOracle req).1.insights
      = "Comparison requires at least 2 documents with readable content." ∧
    (compareDocuments loadOracle ontOracle pairOracle req).1.similarities
      = ["Not enough documents available for comparison"] ∧
    (compareDocuments loadOracle ontOracle pairOracle req).1.differences
      = ["Cannot compare with fewer than 2 documents"] := by
  have hlen : ((directLoadLoop loadOracle [] [] [] req.document_ids).1).length < 2 := by
    rw [directLoad_contents_length]
    exact h
  simp [compareDocuments, hlen, insufficientResponse]

/-- Witness for the amended C2 at a one-document request. -/
theorem insufficient_guard_shortcircuits_witness :
    (compareDocuments okLoad failingOntology fixedPair c2oneDocRequest).2 = 0 ∧
    (compareDocuments okLoad failingOntology fixedPair c2oneDocRequest).1.comparison_id
      = "insufficient_docs" := by
  have h := insufficient_guard_shortcircuits okLoad failingOntology fixedPair
    c2oneDocRequest (by decide)
  exact ⟨h.1, h.2.1⟩

/-! ## C3: the comparison matrix is the all-pairs map -/

/-- Doubled length of the half-pairs list: `2 * |halfPairs l| = n * (n-1)`. -/
theorem halfPairs_length {α : Type} (l : List α) :
    2 * (halfPairs l).length = l.length * (l.length - 1) := by
  induction l with
  | nil => rfl
  | cons x xs ih =>
      simp only [halfPairs, List.length_append, List.length_map, List.length_cons,
        Nat.add_sub_cancel]
      cases hn : xs.length with
      | zero =>
          rw [hn] at ih
          omega
      | succ m =>
          rw [hn] at ih
          simp only [Nat.add_sub_cancel] at ih
          nlinarith [ih]

/-- Both components of a half-pair come from the underlying list. -/
theorem halfPairs_mem {α : Type} {p : α × α} :
    ∀ {l : List α}, p ∈ halfPairs l → p.1 ∈ l ∧ p.2 ∈ l := by
  intro l
  induction l with
  | nil => intro h; simp [halfPairs] at h
  | cons x xs ih =>
      intro h
      simp only [halfPairs, List.mem_append, List.mem_map] at h
      rcases h with ⟨y, hy, hxy⟩ | h
      · constructor
        · simp [← hxy]
        · simp [← hxy, hy]
      · have hih := ih h
        exact ⟨List.mem_cons_of_mem _ hih.1, List.mem_cons_of_mem _ hih.2⟩

/-- The half-pairs of a duplicate-free list are duplicate-free. -/
theorem halfPairs_nodup {α : Type} :
    ∀ {l : List α}, l.Nodup → (halfPairs l).Nodup := by
  intro l
  induction l with
  | nil => intro _; simp [halfPairs]
  | cons x xs ih =>
      intro h
      rcases List.nodup_cons.mp h with ⟨hx, hxs⟩
      simp only [halfPairs]
      refine List.Nodup.append ?_ (ih hxs) ?_
      · refine List.Nodup.map ?_ hxs
        intro a b hab
        simpa using hab
      · intro p hp1 hp2
        rcases List.mem_map.mp hp1 with ⟨y, _, hxy⟩
        have h1 := (halfPairs_mem hp2).1
        rw [← hxy] at h1
        exact hx h1

/-- Splitting around a separator that starts with an underscore is
unambiguous when the left parts contain no underscore. -/
theorem sepSplit (rest : List Char) :
    ∀ (A C B D : List Char), '_' ∉ A → '_' ∉ C →
    A ++ ('_' :: rest) ++ B = C ++ ('_' :: rest) ++ D → A = C ∧ B = D := by
  intro A
  induction A with
  | nil =>
      intro C B D _ hC h
      cases C with
      | nil =>
          simp only [List.nil_append] at h
          exact ⟨rfl, by simpa using h⟩
      | cons c0 C0 =>
          simp only [List.nil_append, List.cons_append, List.append_assoc] at h
          injection h with h1 _
          exact absurd (h1 ▸ List.mem_cons_self c0 C0) hC
  | cons a A0 ih =>
      intro C B D hA hC h
      cases C with
      | nil =>
          simp only [List.nil_append, List.cons_append, List.append_assoc] at h
          injection h with h1 _
          exact absurd (h1 ▸ List.mem_cons_self a A0) hA
      | cons c0 C0 =>
          simp only [List.cons_append, List.append_assoc] at h
          injection h with h1 h2
          have hA0 : '_' ∉ A0 := fun hm => hA (List.mem_cons_of_mem _ hm)
          have hC0 : '_' ∉ C0 := fun hm => hC (List.mem_cons_of_mem _ hm)
          have hih := ih C0 B D hA0 hC0 (by simpa [List.append_assoc] using h2)
          exact ⟨by rw [h1, hih.1], hih.2⟩

/-- The `"{doc1}_vs_{doc2}"` key is injective on underscore-free ids. -/
theorem pairKey_inj {a b c d : String}
    (ha : '_' ∉ a.data) (hc : '_' ∉ c.data)
    (h : pairKey a b = pairKey c d) : a = c ∧ b = d := by
  have hdata : a.data ++ ('_' :: "vs_".data) ++ b.data
      = c.data ++ ('_' :: "vs_".data) ++ d.data := by
    have hcong := congrArg String.data h
    simpa [pairKey, String.data_append] using hcong
  rcases sepSplit "vs_".data a.data c.data b.data d.data ha hc hdata with ⟨h1, h2⟩
  cases a; cases c; cases b; cases d
  simp only at h1 h2
  exact ⟨by rw [h1], by rw [h2]⟩

/-- Inserting a fresh key appends the entry at the end. -/
theorem upsert_append_of_fresh {α : Type} :
    ∀ (l : List (String × α)) (k : String) (v : α), k ∉ l.map Prod.fst →
    upsert l k v = l ++ [(k, v)] := by
  intro l
  induction l with
  | nil => intro k v _; rfl
  | cons p rest ih =>
      intro k v hk
      obtain ⟨k0, v0⟩ := p
      simp only [List.map_cons, List.mem_cons] at hk
      push_neg at hk
      simp only [upsert, if_neg (Ne.symm hk.1), List.cons_append]
      rw [ih _ _ hk.2]

/-- Folding fresh-keyed upserts over pairwise-distinct keys appends all
entries in order. -/
theorem foldl_upsert_pairs (f : String → String → CompareResult)
    (contents : List (String × List Chunk)) :
    ∀ (pairs : List (String × String)) (acc : List (String × MatrixVal)),
    ((pairs.map (fun p => pairKey p.1 p.2)).Nodup) →
    (∀ p ∈ pairs, pairKey p.1 p.2 ∉ acc.map Prod.fst) →
    pairs.foldl (fun acc p =>
        upsert acc (pairKey p.1 p.2) (MatrixVal.comp (recordOf f contents p))) acc
      = acc ++ pairs.map (fun p =>
          (pairKey p.1 p.2, MatrixVal.comp (recordOf f contents p))) := by
  intro pairs
  induction pairs with
  | nil => intro acc _ _; simp
  | cons p rest ih =>
      intro acc hnd hdis
      rw [List.foldl_cons,
        upsert_append_of_fresh acc _ _ (hdis p (List.mem_cons_self p rest))]
      simp only [List.map_cons, List.nodup_cons] at hnd
      rw [ih _ hnd.2]
      · simp
      · intro q hq
        simp only [List.map_append, List.mem_append, List.map_cons, List.map_nil,
          List.mem_singleton]
        push_neg
        constructor
        · exact hdis q (List.mem_cons_of_mem _ hq)
        · intro hkeq
          exact hnd.1 (hkeq ▸ List.mem_map_of_mem (fun p => pairKey p.1 p.2) hq)

/-- With a total comparison function the pairwise loop succeeds and builds
the fold of upserts over the pair list. -/
theorem matrixLoop_total (f : String → String → CompareResult)
    (contents : List (String × List Chunk)) :
    ∀ (pairs : List (String × String)) (acc : List (String × MatrixVal)),
    matrixLoop (fun a b => .ok (f a b)) contents acc pairs
      = .ok (pairs.foldl (fun acc p =>
          upsert acc (pairKey p.1 p.2) (MatrixVal.comp (recordOf f contents p))) acc) := by
  intro pairs
  induction pairs with
  | nil => intro acc; rfl
  | cons p rest ih =>
      intro acc
      obtain ⟨d1, d2⟩ := p
      simp only [matrixLoop, List.foldl_cons, recordOf]
      exact ih _

/-- Counterexample to C3 as stated: four content-bearing documents whose
ids embed the `_vs_` separator produce pair keys that collide, so the
matrix holds 5 entries instead of `4*(4-1)/2 = 6` (the later pair
overwrites the earlier one under the same key). -/
theorem matrix_allpairs_counterexample :
    (∀ p ∈ c3state.document_contents, p.2 ≠ []) ∧
    c3state.document_contents.length = 4 ∧
    (createComparisonMatrix c3oracle c3state).comparison_matrix.length = 5 ∧
    ¬ ((createComparisonMatrix c3oracle c3state).comparison_matrix.length
        = c3state.document_contents.length
          * (c3state.document_contents.length - 1) / 2) := by
  refine ⟨by decide, by decide, by decide, by decide⟩

/-- C3 (amended): for at least 2 loaded documents with pairwise-distinct,
underscore-free ids (so the `"{doc1}_vs_{doc2}"` keys cannot collide), the
matrix step stores exactly one four-field record per unordered pair
`(i, j)`, `i < j`, in the given order — `N*(N-1)/2` entries in all. -/
theorem matrix_allpairs (f : String → String → CompareResult) (s : ComparisonState)
    (hnd : (s.document_contents.map (fun p => p.1)).Nodup)
    (hus : ∀ id ∈ s.document_contents.map (fun p => p.1), '_' ∉ id.data)
    (hN : 2 ≤ s.document_contents.length) :
    (createComparisonMatrix (fun a b => .ok (f a b)) s).comparison_matrix
      = (halfPairs (s.document_contents.map (fun p => p.1))).map
          (fun p => (pairKey p.1 p.2,
            MatrixVal.comp (recordOf f s.document_contents p))) ∧
    (createComparisonMatrix (fun a b => .ok (f a b)) s).comparison_matrix.length
      = s.document_contents.length * (s.document_contents.length - 1) / 2 := by
  have hkeysnd : ((halfPairs (s.document_contents.map (fun p => p.1))).map
      (fun p => pairKey p.1 p.2)).Nodup := by
    refine List.Nodup.map_on ?_ (halfPairs_nodup hnd)
    intro p hp q hq hkey
    rcases pairKey_inj (hus _ (halfPairs_mem hp).1) (hus _ (halfPairs_mem hq).1) hkey
      with ⟨h1, h2⟩
    exact Prod.ext h1 h2
  have hlen2 : ¬ ((s.document_contents.map (fun p => p.1)).length < 2) := by
    simp only [List.length_map]
    omega
  have hmain : (createComparisonMatrix (fun a b => .ok (f a b)) s).comparison_matrix
      = (halfPairs (s.document_contents.map (fun p => p.1))).map
          (fun p => (pairKey p.1 p.2,
            MatrixVal.comp (recordOf f s.document_contents p))) := by
    simp only [createComparisonMatrix, if_neg hlen2,
      matrixLoop_total f s.document_contents]
    rw [foldl_upsert_pairs f s.document_contents _ [] hkeysnd (by simp)]
    simp
  refine ⟨hmain, ?_⟩
  rw [hmain]
  have h2 := halfPairs_length (s.document_contents.map (fun p => p.1))
  simp only [List.length_map] at h2
  rw [List.length_map]
  symm
  exact Nat.div_eq_of_eq_mul_left (by norm_num) (by rw [← h2]; ring)

/-- Witness for the amended C3 at two underscore-free document ids. -/
theorem matrix_allpairs_witness :
    (createComparisonMatrix (fun a b => .ok (c3f a b)) c3goodState).comparison_matrix.length
      = c3goodState.document_contents.length
        * (c3goodState.document_contents.length - 1) / 2 :=
  (matrix_allpairs c3f c3goodState (by decide) (by decide) (by decide)).2

/-! ## C5: the end-to-end monthly-premium scenario -/

/-- Counterexample to C5 as stated: the query `"What is the monthly
premium?"` contains none of the four healthcare trigger keywords
(insurance, coverage, medical, health), so the detected domain is
`"general"`, not `"healthcare"` — the scenario's claimed conjunction fails
at its first component (and the 0.1 boost never applies, leaving 0.8). -/
theorem premium_scenario_counterexample :
    ¬ ((analyzeQuery (initialState c5query none)).domain = some "healthcare" ∧
       c5afterFilter.retrieved_chunks.length = 4 ∧
       c5beforeValidation.confidence = 9/10) := by
  intro h
  have h1 := h.1
  rw [(by decide : (analyzeQuery (initialState c5query none)).domain = some "general")] at h1
  exact (by decide : ¬ ((some "general" : Option String) = some "healthcare")) h1

/-- C5 (amended): for the scenario query with no domain hint and the six
retrieved chunks with distances [0.1, 0.3, 1.9, 2.5, 0.2, 3.0], the
detected domain is `"general"`; the relevance filter keeps exactly the 4
chunks with distance < 2.0; the insight lookup returns the empty string
(its healthcare rule table is inactive outside the healthcare domain, even
though the query contains "premium" and the chunks carry concepts), so no
0.1 boost applies and the confidence entering validation is
`min(1.0, 4*0.2) = 0.8`. -/
theorem premium_scenario_amended :
    (analyzeQuery (initialState c5query none)).domain = some "general" ∧
    c5afterFilter.retrieved_chunks
      = [sampleChunk (1/10), sampleChunk (3/10), sampleChunk (19/10), sampleChunk (2/10)] ∧
    getOntologicalInsights c5query
        ((c5afterFilter.retrieved_chunks.map (fun c => c.metadata.ontology_concepts)).flatten)
        c5afterFilter.domain = "" ∧
    c5beforeValidation.confidence = 8/10 := by
  have hpass1 : chunkPasses (sampleChunk (1/10)) = true := by
    simp only [chunkPasses, sampleChunk, decide_eq_true_eq]
    norm_num
  have hpass2 : chunkPasses (sampleChunk (3/10)) = true := by
    simp only [chunkPasses, sampleChunk, decide_eq_true_eq]
    norm_num
  have hpass3 : chunkPasses (sampleChunk (19/10)) = true := by
    simp only [chunkPasses, sampleChunk, decide_eq_true_eq]
    norm_num
  have hfail4 : chunkPasses (sampleChunk (25/10)) = false := by
    simp only [chunkPasses, sampleChunk, decide_eq_false_iff_not]
    norm_num
  have hpass5 : chunkPasses (sampleChunk (2/10)) = true := by
    simp only [chunkPasses, sampleChunk, decide_eq_true_eq]
    norm_num
  have hfail6 : chunkPasses (sampleChunk 3) = false := by
    simp only [chunkPasses, sampleChunk, decide_eq_false_iff_not]
    norm_num
  have hfilter : c5chunks.filter chunkPasses
      = [sampleChunk (1/10), sampleChunk (3/10), sampleChunk (19/10), sampleChunk (2/10)] := by
    simp only [c5chunks, List.filter_cons, hpass1, hpass2, hpass3, hfail4, hpass5, hfail6]
    simp
  have hchunks : c5afterFilter.retrieved_chunks
      = [sampleChunk (1/10), sampleChunk (3/10), sampleChunk (19/10), sampleChunk (2/10)] := by
    simp only [c5afterFilter, analyzeRelevance, retrieveDocuments, analyzeQuery,
      initialState]
    simp [hfilter]
  have hdom : c5afterFilter.domain = some "general" := by decide
  have hconc : (c5afterFilter.retrieved_chunks.map
      (fun c => c.metadata.ontology_concepts)).flatten
      = ["Premium", "Premium", "Premium", "Premium"] := by
    rw [hchunks]
    simp [sampleChunk, sampleMeta]
  have hins : getOntologicalInsights c5query
      ((c5afterFilter.retrieved_chunks.map (fun c => c.metadata.ontology_concepts)).flatten)
      c5afterFilter.domain = "" := by
    rw [hconc, hdom]
    decide
  refine ⟨by decide, hchunks, hins, ?_⟩
  have hins3 : getOntologicalInsights c5afterFilter.query
      ((c5afterFilter.retrieved_chunks.map (fun c => c.metadata.ontology_concepts)).flatten)
      c5afterFilter.domain = "" := hins
  simp only [c5beforeValidation, generateResponse]
  rw [hins3, hchunks]
  rw [if_neg (fun h : ("" : String) ≠ "" => h rfl), add_zero]
  norm_num [min_def]

end AgenticRag

